import Mathlib

/-!
Verification of the product-image curation workflow engine
(`imagineshop-image-suggestions`, Flask blueprint app under `routes/`,
`tasks.py`, `utils.py`, `models.py`).

The development is a shallow embedding: each Python function that a claim
refers to is translated into a pure Lean function over explicit state.
External effects (HTTP calls, S3, the filesystem, the database commit) are
represented by explicit inputs describing their outcome, and the database
row `ProductProgress` is a Lean structure carrying exactly the columns the
claims talk about.  Python `int` arithmetic on image dimensions is modelled
on `Nat` (the pixel counts are non-negative); `int(800 * (h / w))` for
positive `w ≥ h` equals the rational floor `800 * h / w`, which is `Nat`
division.
-/

namespace ImagineShop

/-- Lifecycle states of a `ProductProgress` row (`models.py`, the string
column `status`; the values used by the code are `pending`, `processing`,
`done`, `skipped`, `error`). -/
inductive Status where
  | pending
  | processing
  | done
  | skipped
  | error
  deriving DecidableEq, Repr

/-- The `product_progress` table row (`models.py` 9–28), restricted to the
columns the workflow engine reads or writes: the unique `product_id`, the
`title` used to derive the working directory, the `status` string, the
`user_id` assignee foreign key, and whether `processed_at` has been set
(the claims only ever ask whether the timestamp is populated, so it is
modelled as a flag).  Note that `models.py` declares NO error-diagnostic
column: `ProductProgress` has `product_id`, `title`, `handle`, `thumbnail`,
`description`, `status`, `processed_at`, `completed_at` and `user_id`, so
the persisted row cannot hold an `error_message`. -/
structure ProductProgress where
  product_id : String
  title : String
  status : Status
  user_id : Option Nat
  processed_at_set : Bool
  deriving DecidableEq, Repr

/-! ## Image normalizer (`utils.resize_and_center_image`, utils.py 80–119) -/

/-- Geometry computed by `utils.resize_and_center_image`: the size of the
output canvas, the size the decoded source is resized to, and the paste
offsets.  (The pixel content itself — LANCZOS resampling, alpha
compositing over white, WEBP quality 90 — is outside the arithmetic the
claim is about.) -/
structure ResizedImage where
  canvas_width : Nat
  canvas_height : Nat
  new_width : Nat
  new_height : Nat
  x_offset : Nat
  y_offset : Nat
  deriving DecidableEq, Repr

/-- Embedding of `utils.resize_and_center_image` (utils.py 102–114):
`if original_width > original_height: new_width = 800; new_height =
int(800 * (original_height / original_width))` and symmetrically
otherwise; canvas `(800, 800)`; offsets `(800 - new) // 2` on each axis. -/
def resize_and_center_image (original_width original_height : Nat) : ResizedImage :=
  let dims : Nat × Nat :=
    if original_height < original_width then
      (800, 800 * original_height / original_width)
    else
      (800 * original_width / original_height, 800)
  { canvas_width := 800
    canvas_height := 800
    new_width := dims.1
    new_height := dims.2
    x_offset := (800 - dims.1) / 2
    y_offset := (800 - dims.2) / 2 }

/-! ## Validation helper (`utils.validate_image_dimensions`, utils.py 70–78) -/

/-- Embedding of `utils.validate_image_dimensions`.  The input is the
result of decoding the file: `some (w, h)` when `Image.open` succeeds with
size `(w, h)`, `none` when it raises.  The function returns the triple
`(is_valid, width, height)`; the `except` branch of the source returns
`(False, 0, 0)`, so the function is total — no exception escapes. -/
def validate_image_dimensions (decoded : Option (Nat × Nat)) : Bool × Nat × Nat :=
  match decoded with
  | some (w, h) => (decide (800 ≤ w) && decide (800 ≤ h), w, h)
  | none => (false, 0, 0)

/-- C3: for every decodable source of width w and height h, the output is an
800×800 canvas, the longer edge is scaled to 800, the shorter edge to the
integer floor of `800 * shorter / longer`, and the paste offsets are
`(800 - new_width) / 2` and `(800 - new_height) / 2`. -/
theorem resize_geometry (w h : Nat) (hw : 0 < w) (hh : 0 < h) :
    (resize_and_center_image w h).canvas_width = 800 ∧
    (resize_and_center_image w h).canvas_height = 800 ∧
    max (resize_and_center_image w h).new_width (resize_and_center_image w h).new_height
      = 800 ∧
    min (resize_and_center_image w h).new_width (resize_and_center_image w h).new_height
      = 800 * min w h / max w h ∧
    (resize_and_center_image w h).x_offset
      = (800 - (resize_and_center_image w h).new_width) / 2 ∧
    (resize_and_center_image w h).y_offset
      = (800 - (resize_and_center_image w h).new_height) / 2 := by
  refine ⟨rfl, rfl, ?_, ?_, rfl, rfl⟩ <;> by_cases hlt : h < w
  · have hbound : 800 * h / w ≤ 800 := by
      calc 800 * h / w ≤ 800 * w / w :=
            Nat.div_le_div_right (Nat.mul_le_mul_left _ (le_of_lt hlt))
        _ = 800 := Nat.mul_div_cancel _ hw
    have hnw : (resize_and_center_image w h).new_width = 800 := by
      simp [resize_and_center_image, hlt]
    have hnh : (resize_and_center_image w h).new_height = 800 * h / w := by
      simp [resize_and_center_image, hlt]
    rw [hnw, hnh, max_eq_left hbound]
  · have hle : w ≤ h := le_of_not_lt hlt
    have hbound : 800 * w / h ≤ 800 := by
      calc 800 * w / h ≤ 800 * h / h :=
            Nat.div_le_div_right (Nat.mul_le_mul_left _ hle)
        _ = 800 := Nat.mul_div_cancel _ hh
    have hnw : (resize_and_center_image w h).new_width = 800 * w / h := by
      simp [resize_and_center_image, hlt]
    have hnh : (resize_and_center_image w h).new_height = 800 := by
      simp [resize_and_center_image, hlt]
    rw [hnw, hnh, max_eq_right hbound]
  · have hle : h ≤ w := le_of_lt hlt
    have hbound : 800 * h / w ≤ 800 := by
      calc 800 * h / w ≤ 800 * w / w :=
            Nat.div_le_div_right (Nat.mul_le_mul_left _ hle)
        _ = 800 := Nat.mul_div_cancel _ hw
    have hnw : (resize_and_center_image w h).new_width = 800 := by
      simp [resize_and_center_image, hlt]
    have hnh : (resize_and_center_image w h).new_height = 800 * h / w := by
      simp [resize_and_center_image, hlt]
    rw [hnw, hnh, min_eq_right hbound, min_eq_right hle, max_eq_left hle]
  · have hle : w ≤ h := le_of_not_lt hlt
    have hbound : 800 * w / h ≤ 800 := by
      calc 800 * w / h ≤ 800 * h / h :=
            Nat.div_le_div_right (Nat.mul_le_mul_left _ hle)
        _ = 800 := Nat.mul_div_cancel _ hh
    have hnw : (resize_and_center_image w h).new_width = 800 * w / h := by
      simp [resize_and_center_image, hlt]
    have hnh : (resize_and_center_image w h).new_height = 800 := by
      simp [resize_and_center_image, hlt]
    rw [hnw, hnh, min_eq_left hbound, min_eq_left hle, max_eq_right hle]

/-- Witness for C3 at the spec's own example: a 2000×500 input is scaled to
800×200 and pasted with vertical offset 300 on the 800×800 canvas. -/
theorem resize_geometry_witness :
    0 < 2000 ∧ 0 < 500 ∧
    ((resize_and_center_image 2000 500).canvas_width = 800 ∧
      (resize_and_center_image 2000 500).canvas_height = 800 ∧
      max (resize_and_center_image 2000 500).new_width
          (resize_and_center_image 2000 500).new_height = 800 ∧
      min (resize_and_center_image 2000 500).new_width
          (resize_and_center_image 2000 500).new_height
        = 800 * min 2000 500 / max 2000 500 ∧
      (resize_and_center_image 2000 500).x_offset
        = (800 - (resize_and_center_image 2000 500).new_width) / 2 ∧
      (resize_and_center_image 2000 500).y_offset
        = (800 - (resize_and_center_image 2000 500).new_height) / 2) ∧
    (resize_and_center_image 2000 500).new_width = 800 ∧
    (resize_and_center_image 2000 500).new_height = 200 ∧
    (resize_and_center_image 2000 500).y_offset = 300 :=
  ⟨by decide, by decide, resize_geometry 2000 500 (by decide) (by decide),
    by decide, by decide, by decide⟩

/-- C4: `validate_image_dimensions` classifies pass exactly when both
decoded dimensions are at least 800 (it reports the decoded dimensions
unchanged); an exact 800×800 image passes and a 799×800 image fails; an
undecodable file is classified fail with dimensions reported as 0, without
raising (the function is total). -/
theorem validate_threshold :
    (∀ w h : Nat,
        ((validate_image_dimensions (some (w, h))).1 = true ↔ (800 ≤ w ∧ 800 ≤ h)) ∧
        (validate_image_dimensions (some (w, h))).2 = (w, h)) ∧
    validate_image_dimensions none = (false, 0, 0) ∧
    (validate_image_dimensions (some (800, 800))).1 = true ∧
    (validate_image_dimensions (some (799, 800))).1 = false := by
  refine ⟨fun w h => ⟨?_, rfl⟩, rfl, by decide, by decide⟩
  simp [validate_image_dimensions]

/-! ## Claiming a task (`routes/product.py`, `process_product`, 211–231) -/

/-- Embedding of the state change performed by `process_product`
(product.py 217–225) on the task row.  The route rejects (flash + redirect,
no database write) when the status is neither `pending` nor `processing`;
otherwise it unconditionally sets `user_id` to the requesting worker and
`status` to `processing` and commits.  `none` models the rejected request
(row unchanged); `some t` models the committed row. -/
def process_product (t : ProductProgress) (worker : Nat) : Option ProductProgress :=
  if t.status ≠ Status.pending ∧ t.status ≠ Status.processing then
    none
  else
    some { t with user_id := some worker, status := Status.processing }

/-- Embedding of `mark_product_as_done` (routes/image.py 366–379): sets
`status = 'done'` and `processed_at = now` on the row and commits; when the
commit raises, the database row is unchanged.  `user_id` is not touched in
either case. -/
def mark_product_as_done (t : ProductProgress) (commit_ok : Bool) : ProductProgress :=
  if commit_ok then { t with status := Status.done, processed_at_set := true } else t

/-- The coupling invariant stated by the spec: `status == processing` holds
iff the assignee is set. -/
def status_assignee_coupled (t : ProductProgress) : Prop :=
  t.status = Status.processing ↔ t.user_id ≠ none

/-- C2 counterexample: a task already `processing` and held by worker 2 is
claimed by worker 1 — the claim succeeds (no Conflict) and silently
reassigns the task, because `process_product` only checks the status, never
the assignee. -/
theorem claim_steals_held_task :
    process_product
        { product_id := "prod_1", title := "Blue Mug", status := Status.processing,
          user_id := some 2, processed_at_set := false } 1
      = some
        { product_id := "prod_1", title := "Blue Mug", status := Status.processing,
          user_id := some 1, processed_at_set := false } ∧
    ¬ (process_product
        { product_id := "prod_1", title := "Blue Mug", status := Status.processing,
          user_id := some 2, processed_at_set := false } 1
      = none) := by
  constructor
  · rfl
  · intro hcontra
    simp [process_product] at hcontra

/-- C2 amended: the claim succeeds exactly when the task status is
`pending` or `processing`, regardless of the current assignee — it then
atomically sets `status = processing` and `assignee = worker`, overwriting
any other worker's claim; only tasks in other states are rejected, and the
rejection leaves the task unchanged.  No Conflict is reported and
exclusivity against another holder is not enforced. -/
theorem claim_requires_only_active_status (t : ProductProgress) (worker : Nat) :
    process_product t worker
      = if t.status = Status.pending ∨ t.status = Status.processing then
          some { t with user_id := some worker, status := Status.processing }
        else none := by
  by_cases hp : t.status = Status.pending ∨ t.status = Status.processing
  · rcases hp with hp | hp <;>
      simp [process_product, hp]
  · push_neg at hp
    simp [process_product, hp.1, hp.2]

/-- C5 counterexample: finishing publication via `mark_product_as_done`
moves a task claimed by worker 1 to `done` without clearing `user_id`, so
the resulting row has an assignee set while its status is not
`processing` — the claimed equivalence is violated by the terminal
transition. -/
theorem done_task_keeps_assignee :
    (mark_product_as_done
        { product_id := "prod_1", title := "Blue Mug", status := Status.processing,
          user_id := some 1, processed_at_set := false } true).status
      = Status.done ∧
    (mark_product_as_done
        { product_id := "prod_1", title := "Blue Mug", status := Status.processing,
          user_id := some 1, processed_at_set := false } true).user_id
      = some 1 ∧
    ¬ status_assignee_coupled
        (mark_product_as_done
          { product_id := "prod_1", title := "Blue Mug", status := Status.processing,
            user_id := some 1, processed_at_set := false } true) := by
  refine ⟨rfl, rfl, ?_⟩
  intro hcoupled
  have : Status.done = Status.processing := by
    exact absurd (hcoupled.mpr (by simp [mark_product_as_done])) (by simp [mark_product_as_done])
  exact absurd this (by decide)

/-- C5 amended: the operations that set a task to `processing` do couple
status and assignee — a successful claim writes `status = processing` and
`assignee = worker` together — but the terminal transition
`mark_product_as_done` never clears `user_id`, so a `done` task retains its
assignee and the equivalence `status = processing ↔ assignee set` does not
hold for reachable terminal rows. -/
theorem coupling_broken_by_terminal_transition (t : ProductProgress) (worker : Nat)
    (commit_ok : Bool) :
    ((process_product t worker).map fun r => (r.status, r.user_id))
      = (if t.status = Status.pending ∨ t.status = Status.processing then
          some (Status.processing, some worker)
        else none) ∧
    (mark_product_as_done t commit_ok).user_id = t.user_id ∧
    (mark_product_as_done t true).status = Status.done := by
  refine ⟨?_, ?_, ?_⟩
  · by_cases hp : t.status = Status.pending ∨ t.status = Status.processing
    · rcases hp with hp | hp <;> simp [process_product, hp]
    · push_neg at hp
      simp [process_product, hp.1, hp.2]
  · cases commit_ok <;> simp [mark_product_as_done]
  · simp [mark_product_as_done]

/-! ## Worker task listing (`routes/product.py`, `list_products`, 23–90)

The worker branch of `list_products` builds the SQL query
`status != 'done' AND status != 'skipped' AND (user_id = me OR user_id IS
NULL)` ordered by the CASE expression `user_id = me → 1, (status =
'pending' AND user_id IS NULL) → 2` (no ELSE, so other rows get NULL).
The embedding filters a list of rows by the same predicate and sorts it by
the same key.  How the database places the NULL priority relative to 1 and
2 differs between backends, so the key given to NULL rows is a parameter
`null_key` of the model and the ordering theorem holds for every value of
it. -/

/-- Row predicate of the base query: the row is not in a terminal state
(`status != 'done' and status != 'skipped'`). -/
def not_terminal (t : ProductProgress) : Bool :=
  decide (t.status ≠ Status.done) && decide (t.status ≠ Status.skipped)

/-- Worker visibility filter: `user_id == me OR user_id IS NULL`. -/
def worker_visible (uid : Nat) (t : ProductProgress) : Bool :=
  decide (t.user_id = some uid) || decide (t.user_id = none)

/-- The worker-branch CASE expression: first matching arm wins; rows
matching no arm get SQL NULL, modelled as `none`. -/
def worker_priority (uid : Nat) (t : ProductProgress) : Option Nat :=
  if t.user_id = some uid then some 1
  else if t.status = Status.pending ∧ t.user_id = none then some 2
  else none

/-- Sort key: CASE result for matched rows, `null_key` for NULL rows (the
backend-dependent placement of NULLs in ORDER BY). -/
def priority_key (null_key : Nat) (p : Option Nat) : Nat :=
  match p with
  | some n => n
  | none => null_key

/-- Embedding of the worker branch of `list_products` (product.py 36–83,
ignoring pagination, which slices the ordered result): filter the rows by
the base query and visibility, then order by the priority key. -/
def list_products_worker (null_key uid : Nat) (db : List ProductProgress) :
    List ProductProgress :=
  (db.filter fun t => not_terminal t && worker_visible uid t).mergeSort
    fun a b =>
      decide (priority_key null_key (worker_priority uid a)
        ≤ priority_key null_key (worker_priority uid b))

/-- C6: whatever key the backend gives NULL-priority rows, the worker queue
contains exactly the stored rows that are non-terminal and either assigned
to the requester or unassigned (so another worker's in-flight tasks never
appear: every listed row is the requester's or unassigned), and no
unassigned `pending` row ever precedes a row assigned to the requester. -/
theorem worker_queue_spec (null_key uid : Nat) (db : List ProductProgress) :
    (∀ t, t ∈ list_products_worker null_key uid db ↔
        t ∈ db ∧ not_terminal t = true ∧ worker_visible uid t = true) ∧
    (∀ t, worker_visible uid t = true ↔ (t.user_id = some uid ∨ t.user_id = none)) ∧
    (list_products_worker null_key uid db).Pairwise
      (fun a b => ¬ (worker_priority uid a = some 2 ∧ worker_priority uid b = some 1)) := by
  refine ⟨?_, ?_, ?_⟩
  · intro t
    rw [list_products_worker, List.mem_mergeSort, List.mem_filter,
      Bool.and_eq_true]
  · intro t
    simp [worker_visible]
  · have hsorted :
        (list_products_worker null_key uid db).Pairwise
          (fun a b =>
            (decide (priority_key null_key (worker_priority uid a)
              ≤ priority_key null_key (worker_priority uid b))) = true) := by
      apply List.sorted_mergeSort
      · intro a b c hab hbc
        simp only [decide_eq_true_eq] at hab hbc ⊢
        exact le_trans hab hbc
      · intro a b
        simp only [Bool.or_eq_true, decide_eq_true_eq]
        exact le_total _ _
    refine hsorted.imp ?_
    intro a b hle hcontra
    rw [hcontra.1, hcontra.2] at hle
    simp [priority_key] at hle

/-! ## Bulk load (`routes/product.py`, `load_products`, 148–207) -/

/-- A product record fetched from the Medusa catalog, restricted to the
fields `load_products` copies into a new row. -/
structure CatalogProduct where
  id : String
  title : String
  deriving DecidableEq, Repr

/-- The row `load_products` constructs for a catalog product not yet in the
registry (product.py 193–200): `status='pending'`, no assignee, no
diagnostics, no timestamps. -/
def mk_pending_entry (p : CatalogProduct) : ProductProgress :=
  { product_id := p.id, title := p.title, status := Status.pending,
    user_id := none, processed_at_set := false }

/-- Embedding of `load_products` (product.py 185–207): walk the fetched
catalog in order, and for each product whose id has no row in the database
(the membership test runs against the stored rows only — the batch built in
`new_entries` is not yet committed) append a fresh `pending` row;
`bulk_save_objects` then appends the batch to the table.  Existing rows are
never touched. -/
def load_products (db : List ProductProgress) (catalog : List CatalogProduct) :
    List ProductProgress :=
  db ++
    (catalog.filter fun p => ! db.any fun t => decide (t.product_id = p.id)).map
      mk_pending_entry

/-- C7: bulk load keeps every existing row unchanged and in place, appends a
`pending` unassigned row exactly for the catalog ids that had no row, leaves
every catalog id represented afterwards, is idempotent (a second run against
the unchanged catalog inserts nothing), and preserves uniqueness of
`product_id` across the table. -/
theorem bulk_load_spec (db : List ProductProgress) (catalog : List CatalogProduct)
    (hdb : (db.map ProductProgress.product_id).Nodup)
    (hcat : (catalog.map CatalogProduct.id).Nodup) :
    (load_products db catalog).take db.length = db ∧
    (∀ t, t ∈ (load_products db catalog).drop db.length →
        t.status = Status.pending ∧ t.user_id = none ∧
        ∃ p, p ∈ catalog ∧ t.product_id = p.id ∧ ∀ u ∈ db, u.product_id ≠ p.id) ∧
    (∀ p, p ∈ catalog → ∃ t, t ∈ load_products db catalog ∧ t.product_id = p.id) ∧
    load_products (load_products db catalog) catalog = load_products db catalog ∧
    ((load_products db catalog).map ProductProgress.product_id).Nodup := by
  have hpred : ∀ p : CatalogProduct,
      (! db.any fun t => decide (t.product_id = p.id)) = true ↔
        ∀ u ∈ db, u.product_id ≠ p.id := by
    intro p
    simp [List.any_eq_true]
  have hcover : ∀ p, p ∈ catalog →
      ∃ t, t ∈ load_products db catalog ∧ t.product_id = p.id := by
    intro p hp
    by_cases hany : (db.any fun t => decide (t.product_id = p.id)) = true
    · rcases List.any_eq_true.mp hany with ⟨t, ht, hpt⟩
      exact ⟨t, List.mem_append_left _ ht, of_decide_eq_true hpt⟩
    · refine ⟨mk_pending_entry p, List.mem_append_right _ ?_, rfl⟩
      exact List.mem_map_of_mem _
        (List.mem_filter.mpr ⟨hp, by simp [Bool.eq_false_iff.mpr hany]⟩)
  refine ⟨?_, ?_, hcover, ?_, ?_⟩
  · exact List.take_left db _
  · intro t ht
    rw [load_products, List.drop_left] at ht
    rcases List.mem_map.mp ht with ⟨p, hpmem, hmk⟩
    rcases List.mem_filter.mp hpmem with ⟨hpcat, hpnew⟩
    refine ⟨by rw [← hmk]; rfl, by rw [← hmk]; rfl, p, hpcat, by rw [← hmk]; rfl, ?_⟩
    exact (hpred p).mp hpnew
  · have hfilter :
        (catalog.filter fun p =>
            ! (load_products db catalog).any fun t => decide (t.product_id = p.id))
          = [] := by
      rw [List.filter_eq_nil_iff]
      intro p hp
      rcases hcover p hp with ⟨t, ht, htid⟩
      have hany : ((load_products db catalog).any fun t =>
          decide (t.product_id = p.id)) = true := by
        simp only [List.any_eq_true, decide_eq_true_eq]
        exact ⟨t, ht, htid⟩
      simp [hany]
    rw [load_products, hfilter]
    simp
  · rw [load_products, List.map_append]
    rw [List.nodup_append]
    refine ⟨hdb, ?_, ?_⟩
    · rw [List.map_map]
      have hcomp :
          (ProductProgress.product_id ∘ mk_pending_entry) = CatalogProduct.id := by
        funext p
        rfl
      rw [hcomp]
      exact hcat.sublist ((List.filter_sublist _).map _)
    · intro x hx hx'
      rcases List.mem_map.mp hx with ⟨u, hu, hux⟩
      rcases List.mem_map.mp hx' with ⟨q, hq, hqx⟩
      rcases List.mem_map.mp hq with ⟨p, hpfil, hpq⟩
      rcases List.mem_filter.mp hpfil with ⟨_, hpnew⟩
      have hne := (hpred p).mp hpnew u hu
      apply hne
      rw [hux, ← hqx, ← hpq]
      rfl

/-- Witness for C7 on an empty registry and a one-product catalog. -/
theorem bulk_load_spec_witness :
    (([] : List ProductProgress).map ProductProgress.product_id).Nodup ∧
    (([{ id := "prod_1", title := "Blue Mug" }] : List CatalogProduct).map
        CatalogProduct.id).Nodup ∧
    ((load_products [] [{ id := "prod_1", title := "Blue Mug" }]).take
        ([] : List ProductProgress).length = [] ∧
      (∀ t, t ∈ (load_products [] [{ id := "prod_1", title := "Blue Mug" }]).drop
            ([] : List ProductProgress).length →
          t.status = Status.pending ∧ t.user_id = none ∧
          ∃ p, p ∈ [({ id := "prod_1", title := "Blue Mug" } : CatalogProduct)] ∧
            t.product_id = p.id ∧ ∀ u ∈ ([] : List ProductProgress), u.product_id ≠ p.id) ∧
      (∀ p, p ∈ [({ id := "prod_1", title := "Blue Mug" } : CatalogProduct)] →
          ∃ t, t ∈ load_products [] [{ id := "prod_1", title := "Blue Mug" }] ∧
            t.product_id = p.id) ∧
      load_products (load_products [] [{ id := "prod_1", title := "Blue Mug" }])
          [{ id := "prod_1", title := "Blue Mug" }]
        = load_products [] [{ id := "prod_1", title := "Blue Mug" }] ∧
      ((load_products [] [{ id := "prod_1", title := "Blue Mug" }]).map
          ProductProgress.product_id).Nodup) :=
  ⟨by simp, by simp,
    bulk_load_spec [] [{ id := "prod_1", title := "Blue Mug" }] (by simp) (by simp)⟩

/-! ## String helpers

`String.endsWith` and `String.toLower` from the Lean library do not reduce
inside the kernel, so the Python operations `str.endswith` and `str.lower`
are embedded directly over the character sequence of the string. -/

/-- Embedding of Python `s.endswith(suffix)`. -/
def str_ends_with (s suffix : String) : Bool :=
  List.isSuffixOf suffix.data s.data

/-- Embedding of Python `s.lower()`. -/
def lower_string (s : String) : String :=
  String.mk (s.data.map Char.toLower)

/-! ## Background pipeline (`tasks.py`, `process_product_images`, 34–147) -/

/-- Embedding of tasks.py 58–65: `if os.path.exists(product_dir):
shutil.rmtree(product_dir)` followed by `os.makedirs(product_dir)`.  The
argument is the prior state of the working directory (`some` contents when
it exists, `none` when it does not); the result is its contents afterwards:
in both branches a freshly created empty directory. -/
def prepare_product_dir (existing : Option (List String)) : List String :=
  match existing with
  | some _ => []
  | none => []

/-- Embedding of tasks.py 68–71: count the files in the working directory
whose lowercased name ends with `.webp`. -/
def current_images_count (dir : List String) : Nat :=
  (dir.filter fun f => str_ends_with (lower_string f) ".webp").length

/-- Embedding of tasks.py 72: `images_to_download = max(0, 15 -
current_images_count)`. -/
def images_to_download (dir : List String) : Int :=
  max 0 (15 - (current_images_count dir : Int))

/-- Embedding of `prepare_image_urls` (routes/image.py 344–348) and of the
identical list comprehension in tasks.py 101–104: prefix every uploaded key
with the configured S3 base URL. -/
def prepare_image_urls (s3_file_url : String) (uploaded : List String) : List String :=
  uploaded.map fun fname => s3_file_url ++ "/" ++ fname

/-- The body of the Medusa product update request built by
`utils.update_medusa_product_images` (utils.py 147–173). -/
structure MedusaPayload where
  thumbnail : String
  images : List String
  status : String
  deriving DecidableEq, Repr

/-- Embedding of `utils.update_medusa_product_images` (utils.py 147–173):
the thumbnail is the first URL ending in `thumbnail.webp`; failing that the
first URL of the list; with no URLs at all the function raises `ValueError`
(the `Except.error` case).  The request body always carries
`status = "published"` alongside the replaced thumbnail and image list. -/
def update_medusa_product_images (image_urls : List String) :
    Except String MedusaPayload :=
  match image_urls.find? (fun u => str_ends_with u "thumbnail.webp") with
  | some t => Except.ok { thumbnail := t, images := image_urls, status := "published" }
  | none =>
    match image_urls with
    | [] => Except.error "No images provided in the image URLs list."
    | u :: _ => Except.ok { thumbnail := u, images := image_urls, status := "published" }

/-- Outcomes of the effectful steps of the background task
`process_product_images` (tasks.py): the prior working-directory state, the
files acquired by `download_images`, whether `upload_images_to_s3` raised,
which keys it returned, whether `get_jwt_token` succeeded, and whether the
Medusa update request itself went through. -/
structure BackgroundEnv where
  initial_dir : Option (List String)
  downloaded_files : List String
  s3_ok : Bool
  uploaded_files : List String
  jwt_ok : Bool
  medusa_ok : Bool
  deriving DecidableEq, Repr

/-- Result of a background pipeline run: the committed `product_progress`
row, the string the code assigned to the UNMAPPED attribute
`product_entry.error_message` (tasks.py 96/114/125/146 — `models.py`
declares no such column, so `db.session.commit()` silently drops the
assignment and it never reaches the database), and the working-directory
state afterwards (`none` = torn down). -/
structure BackgroundOutcome where
  row : ProductProgress
  unpersisted_diagnostic : Option String
  dir : Option (List String)
  deriving DecidableEq, Repr

/-- Embedding of the commit behaviour of `process_product_images`
(tasks.py 34–147) on the task row and the working directory.  The task is
set to `processing`, the working directory is reset and repopulated by the
downloads; then: an S3 exception sets `status='error'`, assigns the
diagnostic to the unmapped `error_message` attribute, commits (only the
status change persists, since the column does not exist) and returns with
the directory kept; a JWT failure likewise; a Medusa failure (request
error, or the `ValueError` for an empty URL list) likewise; only after the
Medusa update succeeds are `status='done'` and `processed_at` committed,
and only then is the directory torn down. -/
def process_product_images_run (s3_file_url : String) (env : BackgroundEnv)
    (t : ProductProgress) : BackgroundOutcome :=
  let dir := prepare_product_dir env.initial_dir ++ env.downloaded_files
  let claimed := { t with status := Status.processing }
  if env.s3_ok = false then
    { row := { claimed with status := Status.error },
      unpersisted_diagnostic := some "S3 upload failed", dir := some dir }
  else if env.jwt_ok = false then
    { row := { claimed with status := Status.error },
      unpersisted_diagnostic := some "JWT token error", dir := some dir }
  else
    match (if env.medusa_ok then
        update_medusa_product_images (prepare_image_urls s3_file_url env.uploaded_files)
      else Except.error "request failed") with
    | Except.error e =>
        { row := { claimed with status := Status.error },
          unpersisted_diagnostic := some ("Medusa update error: " ++ e), dir := some dir }
    | Except.ok _ =>
        { row := { claimed with status := Status.done, processed_at_set := true },
          unpersisted_diagnostic := none, dir := none }

/-! ## Web publication handler (`routes/image.py`, `handle_post_request`,
176–261)

The model covers the request from the upload step on (image.py 226–246),
after the per-file renaming succeeded: `upload_images_to_s3_wrapper`
returns `None` on an exception and otherwise the uploaded keys, and a
falsy result (None or the empty list) redirects; on a truthy result
`remove_local_directory` deletes the working directory BEFORE
`update_medusa_images` runs; a Medusa failure redirects; then
`mark_product_as_done` commits `status='done'`/`processed_at`, and a failed
commit leaves the row unchanged.  This route never writes any diagnostic to
the task (nor could it persist one, since `models.py` has no such column),
and the task enters the route with `status='processing'`. -/

/-- Outcomes of the effectful steps of `handle_post_request`. -/
structure PublicationEnv where
  upload_ok : Bool
  uploaded_files : List String
  medusa_ok : Bool
  commit_ok : Bool
  deriving DecidableEq, Repr

/-- State of the task row and working directory when the handler returns. -/
structure PublicationOutcome where
  status : Status
  processed_at_set : Bool
  dir_removed : Bool
  deriving DecidableEq, Repr

/-- Embedding of `handle_post_request` (image.py 226–246), from the S3
upload to the terminal commit, for a task in status `processing`. -/
def handle_post_request (env : PublicationEnv) : PublicationOutcome :=
  if env.upload_ok = false ∨ env.uploaded_files = [] then
    { status := Status.processing, processed_at_set := false, dir_removed := false }
  else if env.medusa_ok = false then
    { status := Status.processing, processed_at_set := false, dir_removed := true }
  else if env.commit_ok = false then
    { status := Status.processing, processed_at_set := false, dir_removed := true }
  else
    { status := Status.done, processed_at_set := true, dir_removed := true }

/-- C9: `process_product_images` always resets the working directory to
empty before measuring it, so the measured candidate count is 0 and the
computed shortfall is the full target 15, whatever the directory held from
a previous attempt. -/
theorem dispatch_resets_workdir (previous : Option (List String)) :
    prepare_product_dir previous = [] ∧
    current_images_count (prepare_product_dir previous) = 0 ∧
    images_to_download (prepare_product_dir previous) = 15 := by
  cases previous <;>
    simp [prepare_product_dir, current_images_count, images_to_download]

/-- C10: every successful run of `update_medusa_product_images` sends
`status = "published"` in the very request that replaces the thumbnail and
the image list — there is no success path that syncs images without
publishing. -/
theorem sync_always_publishes (image_urls : List String) (p : MedusaPayload)
    (h : update_medusa_product_images image_urls = Except.ok p) :
    p.status = "published" ∧ p.images = image_urls ∧ p.thumbnail ∈ image_urls := by
  unfold update_medusa_product_images at h
  cases hf : image_urls.find? (fun u => str_ends_with u "thumbnail.webp") with
  | some t =>
    rw [hf] at h
    cases h
    exact ⟨rfl, rfl, List.mem_of_find?_eq_some hf⟩
  | none =>
    rw [hf] at h
    match image_urls, h with
    | u :: rest, h =>
      cases h
      exact ⟨rfl, rfl, List.mem_cons_self u rest⟩

/-- Witness for C10 on a two-URL upload result. -/
theorem sync_always_publishes_witness :
    update_medusa_product_images
        ["https://s3/prod_1-thumbnail.webp", "https://s3/prod_1-image1.webp"]
      = Except.ok ⟨"https://s3/prod_1-thumbnail.webp",
          ["https://s3/prod_1-thumbnail.webp", "https://s3/prod_1-image1.webp"],
          "published"⟩ ∧
    ((⟨"https://s3/prod_1-thumbnail.webp",
        ["https://s3/prod_1-thumbnail.webp", "https://s3/prod_1-image1.webp"],
        "published"⟩ : MedusaPayload).status = "published" ∧
      (⟨"https://s3/prod_1-thumbnail.webp",
        ["https://s3/prod_1-thumbnail.webp", "https://s3/prod_1-image1.webp"],
        "published"⟩ : MedusaPayload).images
        = ["https://s3/prod_1-thumbnail.webp", "https://s3/prod_1-image1.webp"] ∧
      (⟨"https://s3/prod_1-thumbnail.webp",
        ["https://s3/prod_1-thumbnail.webp", "https://s3/prod_1-image1.webp"],
        "published"⟩ : MedusaPayload).thumbnail
        ∈ ["https://s3/prod_1-thumbnail.webp", "https://s3/prod_1-image1.webp"]) :=
  ⟨by rfl,
    sync_always_publishes
      ["https://s3/prod_1-thumbnail.webp", "https://s3/prod_1-image1.webp"] _ (by rfl)⟩

/-- C1 counterexample, one failing publication per path.  Web handler: the
upload succeeds and the catalog sync then fails — the task does stay
`processing`, but the working directory has already been deleted (it is
removed right after the upload, before the sync), and no error diagnostic
is recorded (the route writes none, and `models.py` has no column to hold
one).  Background pipeline: the Medusa update fails — the committed row
carries `status='error'`, not `processing`, and the diagnostic exists only
as the unpersisted assignment to the unmapped `error_message` attribute,
which the commit silently drops, so the stored Task again has no
diagnostic. -/
theorem publication_sync_failure_cex :
    (handle_post_request ⟨true, ["prod_1-thumbnail.webp"], false, true⟩).status
      = Status.processing ∧
    (handle_post_request ⟨true, ["prod_1-thumbnail.webp"], false, true⟩).dir_removed
      = true ∧
    ¬ ((handle_post_request ⟨true, ["prod_1-thumbnail.webp"], false, true⟩).dir_removed
        = false) ∧
    (process_product_images_run "https://s3" ⟨none, [], true, [], true, false⟩
        ⟨"prod_1", "Blue Mug", Status.processing, some 1, false⟩).row.status
      = Status.error ∧
    ¬ ((process_product_images_run "https://s3" ⟨none, [], true, [], true, false⟩
          ⟨"prod_1", "Blue Mug", Status.processing, some 1, false⟩).row.status
        = Status.processing) ∧
    (process_product_images_run "https://s3" ⟨none, [], true, [], true, false⟩
        ⟨"prod_1", "Blue Mug", Status.processing, some 1, false⟩).unpersisted_diagnostic
      = some "Medusa update error: request failed" := by
  decide

/-- C1 amended: `done` and `processed_at` are committed only after the
catalog sync (and the final commit) succeed, in both publication paths, and
a failed attempt is never silently `done`.  But the rest of the claim
fails: no path stores an error diagnostic on the Task — the web handler
writes none, and the background pipeline assigns its diagnostic to an
`error_message` attribute that is not a column of `models.ProductProgress`
(the committed row type carries no diagnostic at all), so the commit drops
it; moreover the web handler has already removed the working directory
once the upload succeeded, even when the sync then fails, while the
background pipeline keeps the directory but commits `status='error'`
rather than leaving the task `processing`. -/
theorem publication_commit_discipline (env : PublicationEnv) (s3_file_url : String)
    (benv : BackgroundEnv) (t : ProductProgress) :
    ((handle_post_request env).status = Status.done ↔
        (env.upload_ok = true ∧ env.uploaded_files ≠ [] ∧
          env.medusa_ok = true ∧ env.commit_ok = true)) ∧
    ((handle_post_request env).processed_at_set = true ↔
        (handle_post_request env).status = Status.done) ∧
    ((handle_post_request env).dir_removed = true ↔
        (env.upload_ok = true ∧ env.uploaded_files ≠ [])) ∧
    ((process_product_images_run s3_file_url benv t).row.status = Status.done ∨
      (process_product_images_run s3_file_url benv t).row.status = Status.error) ∧
    ((process_product_images_run s3_file_url benv t).row.status = Status.done ↔
        (benv.s3_ok = true ∧ benv.jwt_ok = true ∧ benv.medusa_ok = true ∧
          (update_medusa_product_images
              (prepare_image_urls s3_file_url benv.uploaded_files)).isOk = true)) ∧
    ((process_product_images_run s3_file_url benv t).dir = none ↔
        (process_product_images_run s3_file_url benv t).row.status = Status.done) ∧
    ((process_product_images_run s3_file_url benv t).row.status = Status.done ∨
      ((process_product_images_run s3_file_url benv t).unpersisted_diagnostic).isSome
        = true) ∧
    ((process_product_images_run s3_file_url benv t).row.processed_at_set
      = if (process_product_images_run s3_file_url benv t).row.status = Status.done
          then true else t.processed_at_set) := by
  obtain ⟨uo, files, mo, co⟩ := env
  obtain ⟨idir, dls, s3, ups, jwt, mok⟩ := benv
  cases hres : update_medusa_product_images (prepare_image_urls s3_file_url ups) <;>
    cases uo <;> cases mo <;> cases co <;> cases s3 <;> cases jwt <;> cases mok <;>
      by_cases hfe : files = [] <;>
        simp [handle_post_request, process_product_images_run, hres, hfe,
          Except.isOk, Except.toBool]

/-! ## Final renaming of the selection (`routes/image.py`,
`handle_post_request`, 193–211) -/

/-- The file filter of the renaming loop (image.py 198):
`image_name.lower().endswith(('webp', 'jpg', 'jpeg', 'png'))`. -/
def is_image_file (f : String) : Bool :=
  str_ends_with (lower_string f) "webp" || str_ends_with (lower_string f) "jpg" ||
    str_ends_with (lower_string f) "jpeg" || str_ends_with (lower_string f) "png"

/-- Embedding of the renaming loop of `handle_post_request` (image.py
196–211): `for i, image_name in enumerate(os.listdir(product_dir),
start=1)`.  The counter `i` advances on every directory entry; an entry
that is an image file is renamed to `{product_id}-thumbnail.webp` when it
equals the selected thumbnail and to `{product_id}-image{i}.webp`
otherwise, and is appended to `processed_images`; other entries produce
nothing but still consume their position. -/
def finalize_from (pid thumbnail_name : String) : Nat → List String → List String
  | _, [] => []
  | i, f :: rest =>
    if is_image_file f then
      (if f = thumbnail_name then pid ++ "-thumbnail.webp"
        else pid ++ "-image" ++ toString i ++ ".webp")
        :: finalize_from pid thumbnail_name (i + 1) rest
    else finalize_from pid thumbnail_name (i + 1) rest

/-- The `processed_images` list collected by `handle_post_request`
(image.py 193–211): the renaming loop started at position 1 over the
directory listing. -/
def processed_images (pid thumbnail_name : String) (listing : List String) :
    List String :=
  finalize_from pid thumbnail_name 1 listing

/-- Specification-side description of the name given to the directory
entry `f` found at 1-based position `i` of the listing: `none` for
non-image entries, the thumbnail name for the selected thumbnail, and the
position-indexed image name otherwise. -/
def position_final_name (pid thumbnail_name f : String) (i : Nat) : Option String :=
  if is_image_file f then
    some (if f = thumbnail_name then pid ++ "-thumbnail.webp"
      else pid ++ "-image" ++ toString i ++ ".webp")
  else none

/-- The renaming loop at any start index is the enumeration of the listing
filtered through `position_final_name`. -/
theorem finalize_from_eq (pid thumbnail_name : String) :
    ∀ (i : Nat) (listing : List String),
      finalize_from pid thumbnail_name i listing
        = (List.enumFrom i listing).filterMap
            (fun q => position_final_name pid thumbnail_name q.2 q.1)
  | _, [] => by simp [finalize_from]
  | i, f :: rest => by
    have ih := finalize_from_eq pid thumbnail_name (i + 1) rest
    by_cases himg : is_image_file f = true
    · by_cases hth : f = thumbnail_name
      · subst hth
        simp [finalize_from, position_final_name, himg, List.enumFrom,
          List.filterMap_cons, ih]
      · simp [finalize_from, position_final_name, himg, hth, List.enumFrom,
          List.filterMap_cons, ih]
    · simp [finalize_from, position_final_name, himg, List.enumFrom,
        List.filterMap_cons, ih]

/-- C8 counterexample: with the directory listing `[candidate.webp,
thumb.webp, second.webp]` and `thumb.webp` selected as thumbnail, the two
non-thumbnail images are renamed to ordinals 1 and 3 — `prod_1-image2.webp`
is never produced, because the thumbnail consumes position 2 of the
enumeration.  The non-thumbnail outputs therefore do not carry consecutive
ordinals 1..k. -/
theorem naming_skips_thumbnail_position :
    processed_images "prod_1" "thumb.webp" ["candidate.webp", "thumb.webp", "second.webp"]
      = ["prod_1-image1.webp", "prod_1-thumbnail.webp", "prod_1-image3.webp"] ∧
    "prod_1-image2.webp" ∉
      processed_images "prod_1" "thumb.webp"
        ["candidate.webp", "thumb.webp", "second.webp"] := by
  decide

/-- C8 amended: the designated thumbnail is renamed to
`{task_id}-thumbnail.webp` and every other image file to
`{task_id}-image{n}.webp`, where n is the file's 1-based position in the
directory enumeration — the thumbnail and non-image entries also consume
positions, so the ordinals of the non-thumbnail outputs are increasing but
not necessarily consecutive. -/
theorem final_naming_by_directory_position (pid thumbnail_name : String)
    (listing : List String) :
    processed_images pid thumbnail_name listing
      = (List.enumFrom 1 listing).filterMap
          (fun q => position_final_name pid thumbnail_name q.2 q.1) :=
  finalize_from_eq pid thumbnail_name 1 listing

end ImagineShop
